import Mathlib

/-!
Shallow embedding of the SPI-NOR transaction protocol layer of
drivers/mtd/devices/m25p80.c.

Modelling conventions:
* Machine bytes are Nat values; every byte stored into the scratch command
  buffer is reduced mod 256 (the buffer is an array of u8).
* The per-device scratch command buffer (u8 command[MAX_CMD_SIZE]) is
  modelled by the list of bytes the current call stages into it, starting
  at index 0.  Every operation stages a contiguous prefix (opcode at byte 0,
  address bytes from byte 1, dummy bytes after the address), and every
  transmitted transfer reads only from that freshly staged prefix, so stale
  buffer contents are unobservable and are not modelled.
* m25p_addr2cmd in C stores cmd[i] = addr >> (addr_width*8 - 8*i) for
  i = 1..4.  Only cmd[1..addr_width] are ever transmitted: every transfer
  that carries address bytes has length bounded by addr_width (plus dummy
  bytes, which overwrite cmd[addr_width+1..] before transmission), so for
  addr_width = 3 the dead store to cmd[4] (whose C shift count is negative)
  is not part of the model.  We model exactly the live bytes cmd[1..width].
* The SPI core (spi_sync_transfer / spi_sync / spi_write) is the external
  Transport Executor.  It is modelled as a function from the assembled
  transfer list to an outcome carrying the return code, the bytes deposited
  into the receive buffer, and the message's actual_length.  Each operation
  records the list of transport invocations it makes, so theorems can state
  that the transport is called exactly once, or not at all.
-/

/-- Direction of one SPI transfer: tx_buf set (send) or rx_buf set (receive).
A struct spi_transfer in this driver never mixes directions. -/
inductive XferDir where
  | tx
  | rx
deriving DecidableEq

/-- One struct spi_transfer as configured by the driver: byte length,
bit-width of the transfer (tx_nbits / rx_nbits), direction, and the staged
bytes for a send transfer (empty for a receive transfer, whose buffer is
filled by the bus). -/
structure SpiTransfer where
  len : Nat
  nbits : Nat
  dir : XferDir
  bytes : List Nat
deriving DecidableEq

/-- The three lane widths decomposed from an enum spi_nor_protocol value by
m25p80_proto2nbits (SNOR_PROTO_CODE/ADDR/DATA_FROM_PROTO). -/
structure SpiNorProto where
  code_nbits : Nat
  addr_nbits : Nat
  data_nbits : Nat
deriving DecidableEq

/-- Outcome of one transport invocation: the return code of
spi_sync_transfer / spi_sync / spi_write, the bytes the bus deposited into
the receive buffer region, and the message's actual_length. -/
structure SyncOutcome where
  ret : Int
  rx : List Nat
  actual : Nat

/-- The external Transport Executor: maps the assembled transfer list to an
outcome. -/
abbrev Transport := List SpiTransfer → SyncOutcome

/-- MAX_CMD_SIZE: capacity of the scratch command buffer. -/
def MAX_CMD_SIZE : Nat := 16

/-- errno EINVAL (the driver returns -EINVAL). -/
def EINVAL : Int := 22

/-- SPINOR_OP_AAI_WP: the SST auto-address-increment word-program opcode. -/
def SPINOR_OP_AAI_WP : Nat := 0xad

/-- m25p_addr2cmd: serialize addr into the command buffer most-significant
byte first, at bytes 1..addr_width (byte 0 holds the opcode).  Byte i
(1-based) is addr >> (addr_width*8 - 8*i), truncated to a u8. -/
def m25p_addr2cmd (addr_width : Nat) (addr : Nat) : List Nat :=
  (List.range addr_width).map fun i => (addr >>> (addr_width * 8 - 8 * (i + 1))) % 256

/-- m25p_cmdsz: 1 opcode byte plus the address bytes. -/
def m25p_cmdsz (addr_width : Nat) : Nat := 1 + addr_width

/-- Decode a byte list as a big-endian integer (specification-side helper
used to state the address-encoder round-trip property). -/
def beDecode (bs : List Nat) : Nat := bs.foldl (fun acc b => acc * 256 + b) 0

/-- Result of m25p80_read_reg: return code, transport invocations made,
the caller's output buffer val after the call, and the bytes the call
staged into the scratch command buffer. -/
structure RegReadResult where
  ret : Int
  calls : List (List SpiTransfer)
  val : List Nat
  command : List Nat
deriving DecidableEq

/-- The two transfers m25p80_read_reg assembles: a 1-byte opcode send at
code_nbits, then a len-byte receive at data_nbits into command[1..]. -/
def m25p80_read_reg_xfers (proto : SpiNorProto) (code : Nat) (len : Nat) :
    List SpiTransfer :=
  [⟨1, proto.code_nbits, XferDir.tx, [code % 256]⟩,
   ⟨len, proto.data_nbits, XferDir.rx, []⟩]

/-- m25p80_read_reg: register read.  Rejects len + 1 > MAX_CMD_SIZE with
-EINVAL before staging anything or touching the transport; otherwise runs
one spi_sync_transfer and, only on success (ret not negative), copies the
len received bytes out into val. -/
def m25p80_read_reg (proto : SpiNorProto) (code : Nat) (val : List Nat) (len : Nat)
    (transport : Transport) : RegReadResult :=
  if MAX_CMD_SIZE < len + 1 then
    { ret := -EINVAL, calls := [], val := val, command := [] }
  else
    let xfers := m25p80_read_reg_xfers proto code len
    let out := transport xfers
    if out.ret < 0 then
      { ret := out.ret, calls := [xfers], val := val, command := [code % 256] }
    else
      { ret := out.ret, calls := [xfers],
        val := out.rx.take len ++ val.drop len, command := [code % 256] }

/-- Result of m25p80_write_reg: return code, transport invocations made,
and the bytes staged into the scratch command buffer. -/
structure WriteRegResult where
  ret : Int
  calls : List (List SpiTransfer)
  command : List Nat
deriving DecidableEq

/-- The transfers m25p80_write_reg assembles: a 1-byte opcode send at
code_nbits; with a payload, either phase 0 is extended by the payload
length when data_nbits = code_nbits (single merged phase), or a second
send phase carries the payload at data_nbits. -/
def m25p80_write_reg_xfers (proto : SpiNorProto) (opcode : Nat)
    (buf : Option (List Nat)) : List SpiTransfer :=
  match buf with
  | none => [⟨1, proto.code_nbits, XferDir.tx, [opcode % 256]⟩]
  | some payload =>
    if proto.data_nbits = proto.code_nbits then
      [⟨1 + payload.length, proto.code_nbits, XferDir.tx, opcode % 256 :: payload⟩]
    else
      [⟨1, proto.code_nbits, XferDir.tx, [opcode % 256]⟩,
       ⟨payload.length, proto.data_nbits, XferDir.tx, payload⟩]

/-- m25p80_write_reg: register write.  With a payload, rejects
len + 1 > MAX_CMD_SIZE with -EINVAL before staging anything or touching
the transport; otherwise stages opcode at byte 0 (and the payload at bytes
1..len), runs one spi_sync_transfer and returns its code. -/
def m25p80_write_reg (proto : SpiNorProto) (opcode : Nat) (buf : Option (List Nat))
    (transport : Transport) : WriteRegResult :=
  match buf with
  | some payload =>
    if MAX_CMD_SIZE < payload.length + 1 then
      { ret := -EINVAL, calls := [], command := [] }
    else
      let xfers := m25p80_write_reg_xfers proto opcode (some payload)
      let out := transport xfers
      { ret := out.ret, calls := [xfers], command := opcode % 256 :: payload }
  | none =>
    let xfers := m25p80_write_reg_xfers proto opcode none
    let out := transport xfers
    { ret := out.ret, calls := [xfers], command := [opcode % 256] }

/-- Result of m25p80_write (bulk program).  The C function returns void:
there is no return-code field to propagate a transport error through. -/
structure BulkWriteResult where
  calls : List (List SpiTransfer)
  command : List Nat
  retlen : Nat
deriving DecidableEq

/-- The command size m25p80_write uses: m25p_cmdsz (1 + addr_width),
overridden to 1 (opcode only, no address) for the second step of the SST
AAI word-program sequence. -/
def m25p80_write_cmdsz (addr_width program_opcode : Nat)
    (sst_write_second : Bool) : Nat :=
  if program_opcode = SPINOR_OP_AAI_WP ∧ sst_write_second then 1
  else m25p_cmdsz addr_width

/-- The bytes m25p80_write stages: the program opcode at byte 0, followed by
the encoded address iff the command size exceeds 1. -/
def m25p80_write_cmd (addr_width program_opcode : Nat) (sst_write_second : Bool)
    (to_ : Nat) : List Nat :=
  if 1 < m25p80_write_cmdsz addr_width program_opcode sst_write_second then
    program_opcode % 256 :: m25p_addr2cmd addr_width to_
  else
    [program_opcode % 256]

/-- The transfers m25p80_write assembles: opcode phase (1 byte, code_nbits);
when an address is required, either merged into phase 0 (addr_nbits =
code_nbits) or a dedicated addr_width-byte phase at addr_nbits; then the
caller's buffer as a final send phase at data_nbits. -/
def m25p80_write_xfers (proto : SpiNorProto) (addr_width program_opcode : Nat)
    (sst_write_second : Bool) (to_ : Nat) (buf : List Nat) : List SpiTransfer :=
  let cmd := m25p80_write_cmd addr_width program_opcode sst_write_second to_
  (if 1 < m25p80_write_cmdsz addr_width program_opcode sst_write_second then
    if proto.addr_nbits = proto.code_nbits then
      [⟨1 + addr_width, proto.code_nbits, XferDir.tx, cmd⟩]
    else
      [⟨1, proto.code_nbits, XferDir.tx, [program_opcode % 256]⟩,
       ⟨addr_width, proto.addr_nbits, XferDir.tx, cmd.drop 1⟩]
  else
    [⟨1, proto.code_nbits, XferDir.tx, [program_opcode % 256]⟩])
  ++ [⟨buf.length, proto.data_nbits, XferDir.tx, buf⟩]

/-- m25p80_write: bulk program.  Assembles the transfers, runs one spi_sync,
and accumulates retlen += actual_length - cmd_sz (the C subtraction is on
unsigned values; the model uses truncated Nat subtraction of cmd_sz from
actual_length, which agrees whenever actual_length covers the header). -/
def m25p80_write (proto : SpiNorProto) (addr_width program_opcode : Nat)
    (sst_write_second : Bool) (to_ : Nat) (buf : List Nat) (retlen : Nat)
    (transport : Transport) : BulkWriteResult :=
  let cmd_sz := m25p80_write_cmdsz addr_width program_opcode sst_write_second
  let xfers := m25p80_write_xfers proto addr_width program_opcode sst_write_second to_ buf
  let out := transport xfers
  { calls := [xfers],
    command := m25p80_write_cmd addr_width program_opcode sst_write_second to_,
    retlen := retlen + (out.actual - cmd_sz) }

/-- Result of m25p80_read (bulk read): return code, transport invocations,
staged scratch-buffer bytes, and the retlen stored through the out
parameter (overwritten, not accumulated, by this operation). -/
structure BulkReadResult where
  ret : Int
  calls : List (List SpiTransfer)
  command : List Nat
  retlen : Nat
deriving DecidableEq

/-- The bytes m25p80_read stages: read opcode at byte 0, the encoded address
at bytes 1..addr_width, then (read_dummy * addr_nbits) / 8 dummy bytes,
all zero-filled (the memset that avoids Continuous Read mode). -/
def m25p80_read_cmd (proto : SpiNorProto) (addr_width read_opcode read_dummy from_ : Nat) :
    List Nat :=
  let dummy := read_dummy * proto.addr_nbits / 8
  read_opcode % 256 :: (m25p_addr2cmd addr_width from_ ++ List.replicate dummy 0)

/-- The transfers m25p80_read assembles: opcode phase (1 byte, code_nbits),
the address-plus-dummy region either merged into phase 0 (addr_nbits =
code_nbits) or as a dedicated phase at addr_nbits, then the caller's
buffer as a len-byte receive phase at data_nbits. -/
def m25p80_read_xfers (proto : SpiNorProto)
    (addr_width read_opcode read_dummy from_ len : Nat) : List SpiTransfer :=
  let dummy := read_dummy * proto.addr_nbits / 8
  let cmd := m25p80_read_cmd proto addr_width read_opcode read_dummy from_
  (if proto.addr_nbits = proto.code_nbits then
    [⟨1 + addr_width + dummy, proto.code_nbits, XferDir.tx, cmd⟩]
  else
    [⟨1, proto.code_nbits, XferDir.tx, [read_opcode % 256]⟩,
     ⟨addr_width + dummy, proto.addr_nbits, XferDir.tx, cmd.drop 1⟩])
  ++ [⟨len, proto.data_nbits, XferDir.rx, []⟩]

/-- m25p80_read: bulk read.  Assembles the transfers, runs one spi_sync
(whose return code the C function discards), stores
retlen = actual_length - m25p_cmdsz - dummy, and returns 0. -/
def m25p80_read (proto : SpiNorProto) (addr_width read_opcode read_dummy from_ len : Nat)
    (transport : Transport) : BulkReadResult :=
  let dummy := read_dummy * proto.addr_nbits / 8
  let xfers := m25p80_read_xfers proto addr_width read_opcode read_dummy from_ len
  let out := transport xfers
  { ret := 0, calls := [xfers],
    command := m25p80_read_cmd proto addr_width read_opcode read_dummy from_,
    retlen := out.actual - m25p_cmdsz addr_width - dummy }

/-- Result of m25p80_erase: return code, transport invocations, staged
scratch-buffer bytes. -/
structure EraseResult where
  ret : Int
  calls : List (List SpiTransfer)
  command : List Nat
deriving DecidableEq

/-- The single transfer m25p80_erase issues via spi_write: m25p_cmdsz bytes
(opcode then address), a plain single-lane send. -/
def m25p80_erase_xfers (addr_width erase_opcode offset : Nat) : List SpiTransfer :=
  [⟨m25p_cmdsz addr_width, 1, XferDir.tx,
    erase_opcode % 256 :: m25p_addr2cmd addr_width offset⟩]

/-- m25p80_erase: stages opcode and address, issues one spi_write (whose
return code the C function discards) and returns 0. -/
def m25p80_erase (addr_width erase_opcode offset : Nat) (transport : Transport) :
    EraseResult :=
  let xfers := m25p80_erase_xfers addr_width erase_opcode offset
  let _out := transport xfers
  { ret := 0, calls := [xfers],
    command := erase_opcode % 256 :: m25p_addr2cmd addr_width offset }

/-- Claim C2: the encoder emits exactly addr_width bytes, decoding them
big-endian recovers addr modulo 2 ^ (addr_width * 8), and the operations
place those bytes in the command buffer starting at byte 1 (shown here for
the bulk-read staging). -/
theorem m25p_addr2cmd_be (addr w : Nat) (hw : w = 3 ∨ w = 4) :
    (m25p_addr2cmd w addr).length = w ∧
    beDecode (m25p_addr2cmd w addr) = addr % 2 ^ (w * 8) ∧
    ∀ (proto : SpiNorProto) (opc dc : Nat),
      ((m25p80_read_cmd proto w opc dc addr).drop 1).take w = m25p_addr2cmd w addr := by
  have hplace : ∀ (proto : SpiNorProto) (opc dc : Nat),
      ((m25p80_read_cmd proto w opc dc addr).drop 1).take w = m25p_addr2cmd w addr := by
    intro proto opc dc
    simp only [m25p80_read_cmd, List.drop_succ_cons, List.drop_zero]
    rw [List.take_left' (by simp [m25p_addr2cmd])]
  rcases hw with h | h <;> subst h <;>
    refine ⟨by simp [m25p_addr2cmd], ?_, hplace⟩ <;>
    · simp [m25p_addr2cmd, beDecode, List.range_succ, Nat.shiftRight_eq_div_pow]
      omega

/-- Witness for m25p_addr2cmd_be at a concrete address and width 3. -/
theorem m25p_addr2cmd_be_witness :
    (m25p_addr2cmd 3 0x123456).length = 3 ∧
    beDecode (m25p_addr2cmd 3 0x123456) = 0x123456 % 2 ^ (3 * 8) ∧
    ∀ (proto : SpiNorProto) (opc dc : Nat),
      ((m25p80_read_cmd proto 3 opc dc 0x123456).drop 1).take 3
        = m25p_addr2cmd 3 0x123456 :=
  m25p_addr2cmd_be 0x123456 3 (Or.inl rfl)

/-- Claim C1: for every bulk read with any non-negative dummy-cycle count,
the staged command buffer holds exactly (read_dummy * addr_nbits) / 8 dummy
bytes, located immediately after the opcode byte and the addr_width address
bytes, and every dummy byte is 0x00. -/
theorem m25p80_read_dummy_zero_fill (proto : SpiNorProto) (w opc dc from_ : Nat) :
    (m25p80_read_cmd proto w opc dc from_).drop (1 + w)
      = List.replicate (dc * proto.addr_nbits / 8) 0 ∧
    (m25p80_read_cmd proto w opc dc from_).length
      = 1 + w + dc * proto.addr_nbits / 8 := by
  constructor
  · rw [Nat.add_comm]
    simp only [m25p80_read_cmd, List.drop_succ_cons]
    rw [List.drop_left' (by simp [m25p_addr2cmd])]
  · simp [m25p80_read_cmd, m25p_addr2cmd]
    omega

/-- Claim C3: m25p80_read_reg is rejected, with -EINVAL, no transport
invocation and no staging, exactly when len + 1 exceeds MAX_CMD_SIZE;
len = 15 passes the capacity check and reaches the transport, len = 16
fails before the transport is invoked. -/
theorem m25p80_read_reg_capacity (proto : SpiNorProto) (code : Nat) (val : List Nat)
    (len : Nat) (transport : Transport) :
    ((m25p80_read_reg proto code val len transport).calls = []
        ↔ MAX_CMD_SIZE < len + 1) ∧
    (MAX_CMD_SIZE < len + 1 →
      (m25p80_read_reg proto code val len transport).ret = -EINVAL ∧
      (m25p80_read_reg proto code val len transport).val = val ∧
      (m25p80_read_reg proto code val len transport).command = []) ∧
    (m25p80_read_reg proto code val 15 transport).calls
      = [m25p80_read_reg_xfers proto code 15] ∧
    (m25p80_read_reg proto code val 16 transport).ret = -EINVAL ∧
    (m25p80_read_reg proto code val 16 transport).calls = [] := by
  refine ⟨?_, ?_, ?_, ?_, ?_⟩
  · simp only [m25p80_read_reg]
    split
    · simp_all
    · split <;> simp_all
  · intro h
    simp [m25p80_read_reg, h]
  · simp only [m25p80_read_reg, if_neg (by decide : ¬ MAX_CMD_SIZE < 15 + 1)]
    split <;> rfl
  · simp only [m25p80_read_reg, if_pos (by decide : MAX_CMD_SIZE < 16 + 1)]
  · simp only [m25p80_read_reg, if_pos (by decide : MAX_CMD_SIZE < 16 + 1)]

/-- Witness for m25p80_read_reg_capacity at len = 16 with a concrete
transport: the call fails -EINVAL with zero transport invocations. -/
theorem m25p80_read_reg_capacity_witness :
    (m25p80_read_reg ⟨1, 1, 1⟩ 5 [7] 16 (fun _ => ⟨0, [], 0⟩)).ret = -EINVAL ∧
    (m25p80_read_reg ⟨1, 1, 1⟩ 5 [7] 16 (fun _ => ⟨0, [], 0⟩)).calls = [] :=
  ⟨(m25p80_read_reg_capacity ⟨1, 1, 1⟩ 5 [7] 16 (fun _ => ⟨0, [], 0⟩)).2.2.2.1,
   (m25p80_read_reg_capacity ⟨1, 1, 1⟩ 5 [7] 16 (fun _ => ⟨0, [], 0⟩)).2.2.2.2⟩

/-- Claim C4 counterexample: with a transport that fails with -5 (-EIO), the
bulk read still returns 0 to its caller — the transport error is not
propagated verbatim as the claim states. -/
theorem m25p80_read_discards_transport_error :
    (m25p80_read ⟨1, 1, 1⟩ 3 3 0 0 1 (fun _ => ⟨-5, [], 0⟩)).ret = 0 ∧
    (m25p80_read ⟨1, 1, 1⟩ 3 3 0 0 1 (fun _ => ⟨-5, [], 0⟩)).ret ≠ -5 := by
  decide

/-- Claim C4 (amended): register read and register write return the
transport's code verbatim with exactly one transport invocation and no
retry; bulk read, bulk write and erase also invoke the transport exactly
once with no retry, but discard its status — bulk read and erase return 0
unconditionally and bulk write reports no status at all. -/
theorem m25p80_transport_status_handling (proto : SpiNorProto) (transport : Transport)
    (code : Nat) (val : List Nat) (len ropc : Nat) (payload : List Nat)
    (w opc dc from_ rlen popc : Nat) (second : Bool) (to_ : Nat) (buf : List Nat)
    (retlen eopc offset : Nat)
    (hlen : len + 1 ≤ MAX_CMD_SIZE) (hpay : payload.length + 1 ≤ MAX_CMD_SIZE) :
    ((m25p80_read_reg proto code val len transport).ret
        = (transport (m25p80_read_reg_xfers proto code len)).ret ∧
      (m25p80_read_reg proto code val len transport).calls.length = 1) ∧
    ((m25p80_write_reg proto ropc (some payload) transport).ret
        = (transport (m25p80_write_reg_xfers proto ropc (some payload))).ret ∧
      (m25p80_write_reg proto ropc (some payload) transport).calls.length = 1) ∧
    ((m25p80_read proto w opc dc from_ rlen transport).ret = 0 ∧
      (m25p80_read proto w opc dc from_ rlen transport).calls.length = 1) ∧
    (m25p80_write proto w popc second to_ buf retlen transport).calls.length = 1 ∧
    ((m25p80_erase w eopc offset transport).ret = 0 ∧
      (m25p80_erase w eopc offset transport).calls.length = 1) := by
  have h1 : ¬ MAX_CMD_SIZE < len + 1 := by omega
  have h2 : ¬ MAX_CMD_SIZE < payload.length + 1 := by omega
  refine ⟨⟨?_, ?_⟩, ⟨?_, ?_⟩, ⟨rfl, rfl⟩, rfl, rfl, rfl⟩
  · simp only [m25p80_read_reg, if_neg h1]
    split <;> rfl
  · simp only [m25p80_read_reg, if_neg h1]
    split <;> rfl
  · simp [m25p80_write_reg, h2]
  · simp [m25p80_write_reg, h2]

/-- Witness for m25p80_transport_status_handling: a concrete failing
transport, bulk read still reports success with one invocation. -/
theorem m25p80_transport_status_handling_witness :
    (m25p80_read ⟨1, 1, 1⟩ 3 3 0 0 1 (fun _ => ⟨-7, [], 0⟩)).ret = 0 ∧
    (m25p80_read ⟨1, 1, 1⟩ 3 3 0 0 1 (fun _ => ⟨-7, [], 0⟩)).calls.length = 1 :=
  (m25p80_transport_status_handling ⟨1, 1, 1⟩ (fun _ => ⟨-7, [], 0⟩) 5 [] 15 6 [1]
    3 3 0 0 1 0xad true 0 [] 0 0xd8 0 (by decide) (by decide)).2.2.1

/-- Claim C5: the assembled bulk-read transaction has exactly 2 phases when
addr_nbits = code_nbits (address and dummy merged into the opcode phase)
and exactly 3 phases otherwise. -/
theorem m25p80_read_phase_count (proto : SpiNorProto) (w opc dc from_ len : Nat) :
    (m25p80_read_xfers proto w opc dc from_ len).length
      = if proto.addr_nbits = proto.code_nbits then 2 else 3 := by
  simp only [m25p80_read_xfers]
  split <;> simp

/-- Claim C6 counterexample: bulk read at 0x001000, length 256, 3-byte
address, 8 dummy cycles, all-lanes-equal protocol: the merged header phase
has length 5 (opcode + 3 address bytes + 1 dummy byte), not 4, and a
transport actual_length of 260 yields retlen 255, not 256. -/
theorem m25p80_read_scenario_cex :
    (m25p80_read_xfers ⟨1, 1, 1⟩ 3 3 8 0x1000 256).map SpiTransfer.len ≠ [4, 256] ∧
    (m25p80_read ⟨1, 1, 1⟩ 3 3 8 0x1000 256 (fun _ => ⟨0, [], 260⟩)).retlen ≠ 256 := by
  decide

/-- Claim C6 (amended): the scenario assembles a merged opcode + address +
dummy phase of length 5 carrying bytes 0x03 0x00 0x10 0x00 0x00, then a
256-byte receive phase, and a transport actual_length of 260 yields
retlen = 255 (260 minus the 4 command bytes minus the 1 dummy byte). -/
theorem m25p80_read_scenario :
    (m25p80_read_xfers ⟨1, 1, 1⟩ 3 3 8 0x1000 256).map SpiTransfer.len = [5, 256] ∧
    (m25p80_read_xfers ⟨1, 1, 1⟩ 3 3 8 0x1000 256).map SpiTransfer.dir
      = [XferDir.tx, XferDir.rx] ∧
    (m25p80_read_xfers ⟨1, 1, 1⟩ 3 3 8 0x1000 256).map SpiTransfer.bytes
      = [[0x03, 0x00, 0x10, 0x00, 0x00], []] ∧
    (m25p80_read ⟨1, 1, 1⟩ 3 3 8 0x1000 256 (fun _ => ⟨0, [], 260⟩)).retlen = 255 := by
  decide

/-- Claim C7: a register write with a payload stages the opcode at byte 0
and the payload right after it; with data_nbits = code_nbits phase 0 is a
single merged phase of length 1 + payload length, otherwise a second phase
of the payload length at data_nbits is emitted. -/
theorem m25p80_write_reg_payload (proto : SpiNorProto) (opcode : Nat)
    (payload : List Nat) (transport : Transport)
    (hcap : payload.length + 1 ≤ MAX_CMD_SIZE) :
    (m25p80_write_reg proto opcode (some payload) transport).command
      = opcode % 256 :: payload ∧
    (proto.data_nbits = proto.code_nbits →
      m25p80_write_reg_xfers proto opcode (some payload)
        = [⟨1 + payload.length, proto.code_nbits, XferDir.tx, opcode % 256 :: payload⟩]) ∧
    (proto.data_nbits ≠ proto.code_nbits →
      m25p80_write_reg_xfers proto opcode (some payload)
        = [⟨1, proto.code_nbits, XferDir.tx, [opcode % 256]⟩,
           ⟨payload.length, proto.data_nbits, XferDir.tx, payload⟩]) ∧
    (m25p80_write_reg proto opcode (some payload) transport).calls
      = [m25p80_write_reg_xfers proto opcode (some payload)] := by
  have h : ¬ MAX_CMD_SIZE < payload.length + 1 := by omega
  refine ⟨?_, ?_, ?_, ?_⟩
  · simp [m25p80_write_reg, h]
  · intro he
    simp [m25p80_write_reg_xfers, he]
  · intro he
    simp [m25p80_write_reg_xfers, he]
  · simp [m25p80_write_reg, h]

/-- Witness for m25p80_write_reg_payload with opcode 0x01 and payload
[2, 3] on an all-lanes-equal protocol. -/
theorem m25p80_write_reg_payload_witness :
    (m25p80_write_reg ⟨1, 1, 1⟩ 1 (some [2, 3]) (fun _ => ⟨0, [], 0⟩)).command
      = 1 % 256 :: [2, 3] :=
  (m25p80_write_reg_payload ⟨1, 1, 1⟩ 1 [2, 3] (fun _ => ⟨0, [], 0⟩) (by decide)).1

/-- Claim C8: bulk write accumulates retlen += actual_length - cmd_sz, with
cmd_sz = 1 + addr_width generically and cmd_sz = 1 (opcode only, no
address) exactly for the AAI opcode with the second-phase flag set. -/
theorem m25p80_write_retlen_accumulates (proto : SpiNorProto) (w popc : Nat)
    (second : Bool) (to_ : Nat) (buf : List Nat) (retlen : Nat) (transport : Transport)
    (hact : m25p80_write_cmdsz w popc second
      ≤ (transport (m25p80_write_xfers proto w popc second to_ buf)).actual) :
    (m25p80_write proto w popc second to_ buf retlen transport).retlen
      = retlen + (transport (m25p80_write_xfers proto w popc second to_ buf)).actual
        - m25p80_write_cmdsz w popc second ∧
    (¬ (popc = SPINOR_OP_AAI_WP ∧ second = true) →
      m25p80_write_cmdsz w popc second = 1 + w) ∧
    (popc = SPINOR_OP_AAI_WP ∧ second = true →
      m25p80_write_cmdsz w popc second = 1 ∧
      m25p80_write_cmd w popc second to_ = [popc % 256]) := by
  refine ⟨?_, ?_, ?_⟩
  · simp only [m25p80_write]
    omega
  · intro h
    simp [m25p80_write_cmdsz, m25p_cmdsz, h]
  · rintro ⟨h1, h2⟩
    have hc : m25p80_write_cmdsz w popc second = 1 := by
      simp [m25p80_write_cmdsz, h1, h2]
    exact ⟨hc, by simp [m25p80_write_cmd, hc]⟩

/-- Witness for m25p80_write_retlen_accumulates: a 3-byte-address program
with actual_length 260 adds 260 - 4 = 256 to the accumulated retlen. -/
theorem m25p80_write_retlen_accumulates_witness :
    (m25p80_write ⟨1, 1, 1⟩ 3 2 false 0 [9] 10 (fun _ => ⟨0, [], 260⟩)).retlen
      = 10 + (((fun _ => ⟨0, [], 260⟩ : Transport))
          (m25p80_write_xfers ⟨1, 1, 1⟩ 3 2 false 0 [9])).actual
        - m25p80_write_cmdsz 3 2 false :=
  (m25p80_write_retlen_accumulates ⟨1, 1, 1⟩ 3 2 false 0 [9] 10
    (fun _ => ⟨0, [], 260⟩) (by decide)).1

/-- Claim C9: every erase is a header-only transaction: one send phase of
m25p_cmdsz bytes (opcode then address), no data phase; with addr_width 4
the single phase has length 5. -/
theorem m25p80_erase_header_only (w opc off : Nat) :
    (m25p80_erase_xfers w opc off).length = 1 ∧
    (m25p80_erase_xfers w opc off).map SpiTransfer.len = [m25p_cmdsz w] ∧
    (m25p80_erase_xfers w opc off).map SpiTransfer.dir = [XferDir.tx] ∧
    (m25p80_erase_xfers w opc off).map SpiTransfer.bytes
      = [opc % 256 :: m25p_addr2cmd w off] ∧
    (m25p80_erase_xfers 4 opc off).map SpiTransfer.len = [5] ∧
    ∀ transport : Transport,
      (m25p80_erase w opc off transport).calls = [m25p80_erase_xfers w opc off] := by
  refine ⟨rfl, rfl, rfl, rfl, ?_, fun transport => rfl⟩
  simp [m25p80_erase_xfers, m25p_cmdsz]

/-- Claim C10: whenever the transport reports an error on a register read,
the caller's output buffer is left unchanged and the error is returned. -/
theorem m25p80_read_reg_error_leaves_val (proto : SpiNorProto) (code : Nat)
    (val : List Nat) (len : Nat) (transport : Transport)
    (hcap : len + 1 ≤ MAX_CMD_SIZE)
    (herr : (transport (m25p80_read_reg_xfers proto code len)).ret < 0) :
    (m25p80_read_reg proto code val len transport).val = val ∧
    (m25p80_read_reg proto code val len transport).ret
      = (transport (m25p80_read_reg_xfers proto code len)).ret := by
  have h : ¬ MAX_CMD_SIZE < len + 1 := by omega
  simp [m25p80_read_reg, h, herr]

/-- Witness for m25p80_read_reg_error_leaves_val: a transport failing with
-9 leaves the 2-byte output buffer [7, 8] untouched. -/
theorem m25p80_read_reg_error_leaves_val_witness :
    (m25p80_read_reg ⟨1, 1, 1⟩ 5 [7, 8] 2 (fun _ => ⟨-9, [1, 2], 4⟩)).val = [7, 8] :=
  (m25p80_read_reg_error_leaves_val ⟨1, 1, 1⟩ 5 [7, 8] 2 (fun _ => ⟨-9, [1, 2], 4⟩)
    (by decide) (by decide)).1
